import Mathlib

/-!
Verification of the presence-detection debounce logic of the FocusGuard
deep-work timer (`deep_work_timer.py`).  The embedding models the state
touched by `DeepWorkTimer.face_detection_loop`, the `TimerWindow`
countdown operations, the face-confidence heuristic, and the
`start_timer` entry point.  Timestamps and confidences are rationals;
machine state is passed explicitly.
-/

namespace FocusGuard

/-- One measurement of face-detection confidence at a point in time
(`confidence` as computed in the detection loop, `timestamp` from
`time.time()`). -/
structure PresenceSample where
  confidence : ℚ
  timestamp : ℚ
deriving DecidableEq

/-- A side-effect on the timer: a call to `timer_window.pause()` or
`timer_window.resume()`. -/
inductive Action where
  | Pause
  | Resume
deriving DecidableEq

/-- The countdown state of `TimerWindow` (lines 105-109): total seconds,
remaining seconds and the paused flag.  `remaining_seconds` is a Python
`int`, modelled as `ℤ`. -/
structure TimerWindow where
  total_seconds : ℤ
  remaining_seconds : ℤ
  is_paused : Bool
deriving DecidableEq

/-- `TimerWindow.__init__`: remaining seconds start at the total and the
timer is not paused. -/
def TimerWindow.init (total_seconds : ℤ) : TimerWindow :=
  { total_seconds := total_seconds
    remaining_seconds := total_seconds
    is_paused := false }

/-- `TimerWindow.pause` (line 140-143). -/
def TimerWindow.pause (w : TimerWindow) : TimerWindow :=
  { w with is_paused := true }

/-- `TimerWindow.resume` (line 145-148). -/
def TimerWindow.resume (w : TimerWindow) : TimerWindow :=
  { w with is_paused := false }

/-- `TimerWindow.tick` (line 150-154): decrease by one second only when
not paused and strictly positive. -/
def TimerWindow.tick (w : TimerWindow) : TimerWindow :=
  if w.is_paused = false ∧ 0 < w.remaining_seconds then
    { w with remaining_seconds := w.remaining_seconds - 1 }
  else w

/-- The confidence threshold hard-coded at line 367. -/
def confidenceThreshold : ℚ := 30

/-- The grace duration (seconds) hard-coded at line 398. -/
def graceDuration : ℚ := 5

/-- `face_present = confidence >= 30` (line 367). -/
def face_present (confidence : ℚ) : Bool :=
  decide (confidenceThreshold ≤ confidence)

/-- The mutable state of `DeepWorkTimer` read and written by the
detection loop: the timer window, `no_face_start_time` (lines 175, 396,
397, 409) and `last_state` (lines 176, 402, 405, 413, 415). -/
structure DeepWorkTimer where
  timer : TimerWindow
  no_face_start_time : Option ℚ
  last_state : String
deriving DecidableEq

/-- `DeepWorkTimer.__init__` together with the timer window created in
`start_timer`: no absence timer, `last_state = "running"`, timer not
paused. -/
def DeepWorkTimer.init (total_seconds : ℤ) : DeepWorkTimer :=
  { timer := TimerWindow.init total_seconds
    no_face_start_time := none
    last_state := "running" }

/-- The result of one observation: the new state, the timer side-effect
performed (if any) and the notification message posted (if any). -/
structure StepResult where
  state : DeepWorkTimer
  action : Option Action
  notification : Option String
deriving DecidableEq

/-- One iteration of the state-change block of `face_detection_loop`
(lines 392-415), for a sample whose `face_present` verdict is derived
from its confidence and whose `current_time` is its timestamp. -/
def observe (s : DeepWorkTimer) (sample : PresenceSample) : StepResult :=
  if face_present sample.confidence = false then
    match s.no_face_start_time with
    | none =>
        ⟨{ s with no_face_start_time := some sample.timestamp }, none, none⟩
    | some t0 =>
        if graceDuration ≤ sample.timestamp - t0 then
          if s.timer.is_paused = false then
            let s1 := { s with timer := s.timer.pause }
            if s1.last_state ≠ "paused" then
              ⟨{ s1 with last_state := "paused" }, some Action.Pause,
                some "⏸️ Timer Paused\nFace not detected"⟩
            else
              ⟨s1, some Action.Pause, none⟩
          else
            ⟨s, none, none⟩
        else
          ⟨s, none, none⟩
  else
    let s1 := { s with no_face_start_time := none }
    if s1.timer.is_paused = true then
      let s2 := { s1 with timer := s1.timer.resume }
      if s2.last_state ≠ "running" then
        ⟨{ s2 with last_state := "running" }, some Action.Resume,
          some "▶️ Timer Resumed\nWelcome back!"⟩
      else
        ⟨s2, some Action.Resume, none⟩
    else
      ⟨s1, none, none⟩

/-- The timer side-effects emitted while feeding a list of samples to
the detection loop, one output slot per sample. -/
def runOutputs (s : DeepWorkTimer) : List PresenceSample → List (Option Action)
  | [] => []
  | sample :: rest =>
      (observe s sample).action :: runOutputs (observe s sample).state rest

/-- The state after feeding a list of samples to the detection loop. -/
def runState (s : DeepWorkTimer) : List PresenceSample → DeepWorkTimer
  | [] => s
  | sample :: rest => runState (observe s sample).state rest

/-- One polling cycle of `face_detection_loop` (lines 340-344): when the
frame read fails (`ret` false) the whole detection block is skipped, so
the state is untouched and nothing is emitted. -/
def read_frame_step (s : DeepWorkTimer) (reading : Option PresenceSample) :
    StepResult :=
  match reading with
  | none => ⟨s, none, none⟩
  | some sample => observe s sample

/-- The state after a list of polling cycles, each either a failed read
(`none`) or a sample. -/
def runReadingsState (s : DeepWorkTimer) :
    List (Option PresenceSample) → DeepWorkTimer
  | [] => s
  | r :: rest => runReadingsState (read_frame_step s r).state rest

/-- A detected face bounding box `(x, y, w, h)` as returned by
`detectMultiScale`. -/
structure Face where
  x : ℕ
  y : ℕ
  w : ℕ
  h : ℕ
deriving DecidableEq

/-- `f[2] * f[3]`: the bounding-box area of a face. -/
def faceArea (f : Face) : ℕ := f.w * f.h

/-- `max(faces, key=lambda f: f[2] * f[3])` (line 359): Python's `max`
keeps the current candidate unless a later one is strictly larger. -/
def largest_face (f : Face) (fs : List Face) : Face :=
  fs.foldl (fun best g => if faceArea best < faceArea g then g else best) f

/-- The confidence computed at lines 357-364 for a nonempty list of
faces `f :: fs` in a frame of `frame_h` by `frame_w` pixels:
`min(100, (face_area / frame_area) * 1000)` for the largest face. -/
def frame_confidence (frame_h frame_w : ℕ) (f : Face) (fs : List Face) : ℚ :=
  min 100 (((faceArea (largest_face f fs) : ℚ) /
    ((frame_h * frame_w : ℕ) : ℚ)) * 1000)

/-- The application-level state touched by `DeepWorkTimer.start_timer`
(lines 267-298): whether the input window was hidden, the timer window
(if created), the thread flags and the last error dialog shown. -/
structure AppState where
  root_withdrawn : Bool
  timer_window : Option TimerWindow
  stop_threads : Bool
  face_thread_started : Bool
  timer_updating : Bool
  error_message : Option String
deriving DecidableEq

/-- The application state after `DeepWorkTimer.__init__`, before any
start attempt. -/
def app_init : AppState :=
  { root_withdrawn := false
    timer_window := none
    stop_threads := false
    face_thread_started := false
    timer_updating := false
    error_message := none }

/-- `DeepWorkTimer.start_timer` (lines 267-298).  `entry` is the parsed
minutes value (`none` models a `ValueError` from `int(...)`);
`camera_opens` is the outcome of `cv2.VideoCapture(0).isOpened()`.  The
input window is hidden and the timer window created before the camera is
opened; on camera failure the error dialog is shown and the function
returns without starting the detection thread or the countdown. -/
def start_timer (s : AppState) (entry : Option ℤ) (camera_opens : Bool) :
    AppState :=
  match entry with
  | none => { s with error_message := some "Please enter a valid number" }
  | some minutes =>
      if minutes ≤ 0 ∨ 999 < minutes then
        { s with error_message := some "Please enter a value between 1 and 999 minutes" }
      else
        let s1 := { s with
          root_withdrawn := true
          timer_window := some (TimerWindow.init (minutes * 60)) }
        if camera_opens = false then
          { s1 with error_message := some "Could not access webcam" }
        else
          { s1 with
            stop_threads := false
            face_thread_started := true
            timer_updating := true }

/-- The bookkeeping invariant relating the notification guard
`last_state` to the timer's paused flag. -/
def notify_consistent (s : DeepWorkTimer) : Prop :=
  s.last_state = "paused" ↔ s.timer.is_paused = true

/-! ## Step lemmas: one `observe` call per branch of the loop body -/

/-- A below-threshold sample with no absence timer active starts the
timer at the sample's timestamp and emits nothing (lines 396-397). -/
theorem observe_below_start (s : DeepWorkTimer) (p : PresenceSample)
    (hc : face_present p.confidence = false)
    (hnf : s.no_face_start_time = none) :
    observe s p = ⟨{ s with no_face_start_time := some p.timestamp }, none, none⟩ := by
  simp [observe, hc, hnf]

/-- A below-threshold sample inside the grace window leaves the state
unchanged and emits nothing (line 398, condition false). -/
theorem observe_below_within (s : DeepWorkTimer) (p : PresenceSample) (t0 : ℚ)
    (hc : face_present p.confidence = false)
    (hnf : s.no_face_start_time = some t0)
    (hlt : p.timestamp - t0 < graceDuration) :
    observe s p = ⟨s, none, none⟩ := by
  simp [observe, hc, hnf, not_le.mpr hlt]

/-- A below-threshold sample at or past the grace boundary, with the
timer running and `last_state = "running"`, pauses the timer, posts the
pause notification and flips `last_state` (lines 398-405). -/
theorem observe_below_fire (s : DeepWorkTimer) (p : PresenceSample) (t0 : ℚ)
    (hc : face_present p.confidence = false)
    (hnf : s.no_face_start_time = some t0)
    (hge : graceDuration ≤ p.timestamp - t0)
    (hp : s.timer.is_paused = false)
    (hls : s.last_state = "running") :
    observe s p = ⟨{ s with timer := s.timer.pause, last_state := "paused" },
      some Action.Pause, some "⏸️ Timer Paused\nFace not detected"⟩ := by
  simp [observe, hc, hnf, hge, hp, hls]

/-- While the timer is already paused, a below-threshold sample performs
no timer call, posts no notification and keeps the timer and
`last_state` untouched. -/
theorem observe_below_paused (s : DeepWorkTimer) (p : PresenceSample)
    (hc : face_present p.confidence = false)
    (hp : s.timer.is_paused = true) :
    (observe s p).action = none ∧ (observe s p).notification = none ∧
    (observe s p).state.timer = s.timer ∧
    (observe s p).state.last_state = s.last_state := by
  cases hnf : s.no_face_start_time with
  | none => simp [observe, hc, hnf]
  | some t0 =>
      by_cases hge : graceDuration ≤ p.timestamp - t0
      · simp [observe, hc, hnf, hge, hp]
      · simp [observe, hc, hnf, hge]

/-- An at-or-above-threshold sample with the timer running clears the
absence timer and emits nothing (lines 406-409). -/
theorem observe_present_running (s : DeepWorkTimer) (p : PresenceSample)
    (hc : face_present p.confidence = true)
    (hp : s.timer.is_paused = false) :
    observe s p = ⟨{ s with no_face_start_time := none }, none, none⟩ := by
  simp [observe, hc, hp]

/-- An at-or-above-threshold sample with the timer paused resumes the
timer and clears the absence timer (lines 406-415). -/
theorem observe_present_paused (s : DeepWorkTimer) (p : PresenceSample)
    (hc : face_present p.confidence = true)
    (hp : s.timer.is_paused = true) :
    (observe s p).action = some Action.Resume ∧
    (observe s p).state.timer.is_paused = false ∧
    (observe s p).state.no_face_start_time = none := by
  by_cases hls : s.last_state = "running" <;>
    simp [observe, hc, hp, hls, TimerWindow.resume]

/-! ## Run lemmas: feeding whole sample sequences to the loop -/

/-- While the timer is paused, a run of below-threshold samples emits
nothing and the timer stays paused. -/
theorem runOutputs_paused_below (s : DeepWorkTimer) (l : List PresenceSample)
    (hp : s.timer.is_paused = true)
    (hl : ∀ p ∈ l, face_present p.confidence = false) :
    runOutputs s l = List.replicate l.length none := by
  induction l generalizing s with
  | nil => rfl
  | cons p rest ih =>
      have h1 := observe_below_paused s p (hl p (by simp)) hp
      rw [runOutputs, h1.1, List.length_cons, List.replicate_succ]
      exact congrArg (none :: ·)
        (ih _ (by rw [h1.2.2.1]; exact hp) (fun q hq => hl q (by simp [hq])))

/-- A run of below-threshold samples all inside the grace window of an
active absence timer emits nothing and leaves the state unchanged. -/
theorem runOutputs_within_grace (s : DeepWorkTimer) (t0 : ℚ)
    (l : List PresenceSample)
    (hnf : s.no_face_start_time = some t0)
    (hl : ∀ p ∈ l, face_present p.confidence = false ∧
      p.timestamp - t0 < graceDuration) :
    runOutputs s l = List.replicate l.length none ∧ runState s l = s := by
  induction l with
  | nil => exact ⟨rfl, rfl⟩
  | cons p rest ih =>
      have h1 := observe_below_within s p t0 (hl p (by simp)).1 hnf
        (hl p (by simp)).2
      have ih2 := ih (fun q hq => hl q (by simp [hq]))
      rw [runOutputs, runState, h1, List.length_cons, List.replicate_succ]
      exact ⟨congrArg (none :: ·) ih2.1, ih2.2⟩

/-- While the timer is running, a run of at-or-above-threshold samples
emits nothing and the timer stays running. -/
theorem runOutputs_present_running (s : DeepWorkTimer)
    (l : List PresenceSample)
    (hp : s.timer.is_paused = false)
    (hl : ∀ p ∈ l, face_present p.confidence = true) :
    runOutputs s l = List.replicate l.length none := by
  induction l generalizing s with
  | nil => rfl
  | cons p rest ih =>
      rw [runOutputs, observe_present_running s p (hl p (by simp)) hp,
        List.length_cons, List.replicate_succ]
      exact congrArg (none :: ·)
        (ih { s with no_face_start_time := none } hp
          (fun q hq => hl q (by simp [hq])))

/-- From a state with an active absence timer started at `t0`, the timer
running and `last_state = "running"`, a run of below-threshold samples
emits nothing while timestamps stay short of `t0 + graceDuration`,
emits exactly one `Pause` at the first sample at or past that bound, and
emits nothing afterwards. -/
theorem runOutputs_absent_run (s : DeepWorkTimer) (t0 : ℚ)
    (l : List PresenceSample)
    (hnf : s.no_face_start_time = some t0)
    (hp : s.timer.is_paused = false)
    (hls : s.last_state = "running")
    (hl : ∀ p ∈ l, face_present p.confidence = false) :
    runOutputs s l =
      List.replicate
        (l.takeWhile (fun p =>
          decide (p.timestamp < t0 + graceDuration))).length (none : Option Action)
      ++ (match l.dropWhile (fun p =>
            decide (p.timestamp < t0 + graceDuration)) with
          | [] => []
          | _ :: tl => some Action.Pause :: List.replicate tl.length none) := by
  induction l with
  | nil => rfl
  | cons p rest ih =>
      by_cases hcond : p.timestamp < t0 + graceDuration
      · rw [runOutputs, observe_below_within s p t0 (hl p (by simp)) hnf
          (by linarith)]
        rw [List.takeWhile_cons, List.dropWhile_cons]
        simp only [decide_eq_true_eq, hcond, if_true, List.length_cons,
          List.replicate_succ, List.cons_append]
        exact congrArg (none :: ·) (ih (fun q hq => hl q (by simp [hq])))
      · rw [runOutputs, observe_below_fire s p t0 (hl p (by simp)) hnf
          (by push_neg at hcond; linarith) hp hls]
        rw [List.takeWhile_cons, List.dropWhile_cons]
        simp only [decide_eq_true_eq, hcond, if_false, List.length_nil,
          List.replicate_zero, List.nil_append]
        exact congrArg (some Action.Pause :: ·)
          (runOutputs_paused_below _ rest (by simp [TimerWindow.pause])
            (fun q hq => hl q (by simp [hq])))

/-- Reachability invariant: whenever the timer is paused, an absence
timer is active.  It holds after `__init__` and is preserved by every
observation; it justifies restricting state-quantified properties to
such states. -/
theorem observe_paused_has_absence (T : ℤ) (s : DeepWorkTimer)
    (p : PresenceSample) :
    ((DeepWorkTimer.init T).timer.is_paused = true →
      (DeepWorkTimer.init T).no_face_start_time ≠ none) ∧
    ((observe s p).state.timer.is_paused = true →
      (observe s p).state.no_face_start_time ≠ none) := by
  refine ⟨by simp [DeepWorkTimer.init, TimerWindow.init], ?_⟩
  cases hc : face_present p.confidence with
  | false =>
      cases hnf : s.no_face_start_time with
      | none => simp [observe, hc, hnf]
      | some t0 =>
          by_cases hge : graceDuration ≤ p.timestamp - t0
          · by_cases hp : s.timer.is_paused = false
            · by_cases hls : s.last_state = "paused" <;>
                simp [observe, hc, hnf, hge, hp, hls]
            · simp [observe, hc, hnf, hge, hp]
          · simp [observe, hc, hnf, hge]
  | true =>
      by_cases hp : s.timer.is_paused = true
      · by_cases hls : s.last_state = "running" <;>
          simp [observe, hc, hp, hls, TimerWindow.resume]
      · simp only [Bool.not_eq_true] at hp
        rw [observe_present_running s p hc hp]
        simp [hp]

/-- C1: starting from the freshly initialised machine, feed one
below-threshold sample (starting the absence run at its timestamp) and
then any further below-threshold samples.  No `Pause` is emitted while
timestamps stay below `absenceStart + graceDuration`; at the first
sample at or past that bound exactly one `Pause` is emitted; afterwards
nothing more is emitted.  In particular, a run spanning less than the
grace duration emits no action at all. -/
theorem C1_single_pause_at_grace_expiry (T : ℤ) (first : PresenceSample)
    (rest : List PresenceSample)
    (h0 : face_present first.confidence = false)
    (hrest : ∀ p ∈ rest, face_present p.confidence = false) :
    runOutputs (DeepWorkTimer.init T) (first :: rest) =
      none :: (List.replicate
        ((rest.takeWhile (fun p =>
          decide (p.timestamp < first.timestamp + graceDuration))).length)
        (none : Option Action)
      ++ (match rest.dropWhile (fun p =>
            decide (p.timestamp < first.timestamp + graceDuration)) with
          | [] => []
          | _ :: tl => some Action.Pause :: List.replicate tl.length none)) := by
  rw [runOutputs, observe_below_start _ _ h0 rfl]
  exact congrArg (none :: ·)
    (runOutputs_absent_run _ first.timestamp rest rfl rfl rfl hrest)

/-- C1 witness: grace 5 s, below-threshold samples at t = 0, 1, 4, 9;
the absence run starts at t = 0 and the sample at t = 9 is the first at
or past t = 5, so it carries the single `Pause`. -/
theorem C1_witness :
    runOutputs (DeepWorkTimer.init 1500)
      [⟨10, 0⟩, ⟨10, 1⟩, ⟨5, 4⟩, ⟨5, 9⟩] =
      [none, none, none, some Action.Pause] := by
  have h := C1_single_pause_at_grace_expiry 1500 ⟨10, 0⟩
    [⟨10, 1⟩, ⟨5, 4⟩, ⟨5, 9⟩] (by decide) (by decide)
  rw [h]
  norm_num [List.takeWhile_cons, List.dropWhile_cons, graceDuration]
  rfl

/-- C2: with the timer running, an at-or-above-threshold sample clears
the absence timer immediately and emits nothing, and a following run of
below-threshold samples emits nothing for as long as it spans less than
the grace duration measured from its own first sample. -/
theorem C2_positive_sample_resets_grace (s : DeepWorkTimer)
    (p q : PresenceSample) (rest : List PresenceSample)
    (hp : s.timer.is_paused = false)
    (hpc : face_present p.confidence = true)
    (hqc : face_present q.confidence = false)
    (hrest : ∀ r ∈ rest, face_present r.confidence = false ∧
      r.timestamp < q.timestamp + graceDuration) :
    (observe s p).state.no_face_start_time = none ∧
    (observe s p).action = none ∧
    runOutputs s (p :: q :: rest) = List.replicate (rest.length + 2) none := by
  rw [observe_present_running s p hpc hp]
  refine ⟨rfl, rfl, ?_⟩
  rw [runOutputs, observe_present_running s p hpc hp, runOutputs,
    observe_below_start _ q hqc rfl]
  have h2 := runOutputs_within_grace
    { s with no_face_start_time := some q.timestamp } q.timestamp rest rfl
    (fun r hr => ⟨(hrest r hr).1, by have := (hrest r hr).2; linarith⟩)
  show (none : Option Action) :: none ::
    runOutputs { s with no_face_start_time := some q.timestamp } rest = _
  rw [h2.1]
  rfl

/-- C2 witness: reset at t = 4 (confidence 40) after absence from t = 0;
the new absence run from t = 5 emits nothing through t = 9.5. -/
theorem C2_witness :
    (observe ⟨TimerWindow.init 600, some 0, "running"⟩ ⟨40, 4⟩).state.no_face_start_time = none ∧
    (observe ⟨TimerWindow.init 600, some 0, "running"⟩ ⟨40, 4⟩).action = none ∧
    runOutputs ⟨TimerWindow.init 600, some 0, "running"⟩
      [⟨40, 4⟩, ⟨5, 5⟩, ⟨5, 19/2⟩] = List.replicate 3 none :=
  C2_positive_sample_resets_grace ⟨TimerWindow.init 600, some 0, "running"⟩
    ⟨40, 4⟩ ⟨5, 5⟩ [⟨5, 19/2⟩] (by decide) (by decide) (by decide)
    (by norm_num [face_present, confidenceThreshold, graceDuration])

/-- C3: while the timer is paused, the first at-or-above-threshold
sample emits exactly one `Resume`, and any further at-or-above-threshold
samples emit nothing. -/
theorem C3_single_resume_then_silent (s : DeepWorkTimer)
    (p : PresenceSample) (rest : List PresenceSample)
    (hp : s.timer.is_paused = true)
    (hpc : face_present p.confidence = true)
    (hrest : ∀ r ∈ rest, face_present r.confidence = true) :
    runOutputs s (p :: rest) =
      some Action.Resume :: List.replicate rest.length none := by
  have h1 := observe_present_paused s p hpc hp
  rw [runOutputs, h1.1]
  exact congrArg (some Action.Resume :: ·)
    (runOutputs_present_running _ rest h1.2.1 hrest)

/-- C3 witness: paused machine, three present samples — one `Resume`,
then silence. -/
theorem C3_witness :
    runOutputs ⟨⟨600, 300, true⟩, some 0, "paused"⟩
      [⟨60, 10⟩, ⟨60, 11⟩, ⟨60, 12⟩] =
      [some Action.Resume, none, none] :=
  C3_single_resume_then_silent ⟨⟨600, 300, true⟩, some 0, "paused"⟩
    ⟨60, 10⟩ [⟨60, 11⟩, ⟨60, 12⟩] (by decide) (by decide) (by decide)

/-- C4: per observation at most one timer side-effect is performed, a
`Pause` occurs only on a running-to-paused transition, a `Resume` only
on a paused-to-running transition, and a notification is posted only
when `last_state` actually changes — never while remaining in the same
state. -/
theorem C4_signals_only_on_transitions (s : DeepWorkTimer)
    (p : PresenceSample) :
    ((observe s p).action = some Action.Pause →
      s.timer.is_paused = false ∧ (observe s p).state.timer.is_paused = true) ∧
    ((observe s p).action = some Action.Resume →
      s.timer.is_paused = true ∧ (observe s p).state.timer.is_paused = false) ∧
    (∀ m, (observe s p).notification = some m →
      (observe s p).state.last_state ≠ s.last_state) := by
  cases hc : face_present p.confidence with
  | false =>
      cases hnf : s.no_face_start_time with
      | none => simp [observe, hc, hnf]
      | some t0 =>
          by_cases hge : graceDuration ≤ p.timestamp - t0
          · by_cases hp : s.timer.is_paused = false
            · by_cases hls : s.last_state = "paused"
              · simp [observe, hc, hnf, hge, hp, hls, TimerWindow.pause]
              · simp [observe, hc, hnf, hge, hp, hls, TimerWindow.pause]
                exact fun h => hls h.symm
            · simp [observe, hc, hnf, hge, hp]
          · simp [observe, hc, hnf, hge]
  | true =>
      by_cases hp : s.timer.is_paused = true
      · by_cases hls : s.last_state = "running"
        · simp [observe, hc, hp, hls, TimerWindow.resume]
        · simp [observe, hc, hp, hls, TimerWindow.resume]
          exact fun h => hls h.symm
      · simp only [Bool.not_eq_true] at hp
        rw [observe_present_running s p hc hp]
        simp [hp]

/-- C4 witness: a pause transition at a concrete state and sample. -/
theorem C4_witness :
    (⟨TimerWindow.init 600, some 0, "running"⟩ : DeepWorkTimer).timer.is_paused = false ∧
    (observe ⟨TimerWindow.init 600, some 0, "running"⟩ ⟨0, 6⟩).state.timer.is_paused = true :=
  (C4_signals_only_on_transitions ⟨TimerWindow.init 600, some 0, "running"⟩
    ⟨0, 6⟩).1 (by
      rw [observe_below_fire ⟨TimerWindow.init 600, some 0, "running"⟩ ⟨0, 6⟩ 0
        (by decide) rfl (by norm_num [graceDuration]) rfl rfl])

/-- C5: on any state satisfying the reachability invariant (paused
implies an active absence timer), a sample that leaves the
`face_present` verdict recorded by the state unchanged and does not make
the elapsed absence cross the grace boundary performs no timer
side-effect. -/
theorem C5_unchanged_verdict_no_action (s : DeepWorkTimer)
    (p : PresenceSample)
    (hreach : s.timer.is_paused = true → s.no_face_start_time ≠ none)
    (hverdict : face_present p.confidence = s.no_face_start_time.isNone)
    (hnocross : ∀ t0, s.no_face_start_time = some t0 →
      s.timer.is_paused = false → p.timestamp < t0 + graceDuration) :
    (observe s p).action = none := by
  cases hnf : s.no_face_start_time with
  | none =>
      have hc : face_present p.confidence = true := by
        rw [hverdict, hnf]; rfl
      have hp : s.timer.is_paused = false := by
        cases h : s.timer.is_paused with
        | false => rfl
        | true => exact absurd hnf (hreach h)
      rw [observe_present_running s p hc hp]
  | some t0 =>
      have hc : face_present p.confidence = false := by
        rw [hverdict, hnf]; rfl
      cases hp : s.timer.is_paused with
      | true => exact (observe_below_paused s p hc hp).1
      | false =>
          have := hnocross t0 hnf hp
          rw [observe_below_within s p t0 hc hnf (by linarith)]

/-- C5 witness: absent state still inside the grace window, another
below-threshold sample — no action. -/
theorem C5_witness :
    (observe ⟨TimerWindow.init 600, some 0, "running"⟩ ⟨5, 3⟩).action = none :=
  C5_unchanged_verdict_no_action ⟨TimerWindow.init 600, some 0, "running"⟩
    ⟨5, 3⟩ (by decide) (by decide)
    (by
      intro t0 ht h2
      obtain rfl : (0 : ℚ) = t0 := Option.some.inj ht
      norm_num [graceDuration])

/-- Auxiliary for C6: the face selected by the Python `max` call is one
of the detected faces. -/
theorem largest_face_mem (f : Face) (fs : List Face) :
    largest_face f fs ∈ f :: fs := by
  induction fs generalizing f with
  | nil => simp [largest_face]
  | cons g rest ih =>
      have hstep : largest_face f (g :: rest) =
          largest_face (if faceArea f < faceArea g then g else f) rest := rfl
      rw [hstep]
      have := ih (if faceArea f < faceArea g then g else f)
      by_cases hfg : faceArea f < faceArea g
      · rw [if_pos hfg] at this
        rcases List.mem_cons.mp (ih g) with h | h
        · simp [hstep, if_pos hfg, h]
        · simp [hstep, if_pos hfg, List.mem_cons.mpr (Or.inr h)]
      · rw [if_neg hfg] at this
        rcases List.mem_cons.mp (ih f) with h | h
        · simp [hstep, if_neg hfg, h]
        · simp [hstep, if_neg hfg, List.mem_cons.mpr (Or.inr h)]

/-- Auxiliary for C6: the face selected by the Python `max` call has the
largest bounding-box area. -/
theorem largest_face_max (f : Face) (fs : List Face) :
    ∀ g ∈ f :: fs, faceArea g ≤ faceArea (largest_face f fs) := by
  induction fs generalizing f with
  | nil =>
      intro g hg
      rcases List.mem_cons.mp hg with h | h
      · subst h; exact le_refl _
      · exact absurd h (List.not_mem_nil g)
  | cons g rest ih =>
      intro x hx
      have hstep : largest_face f (g :: rest) =
          largest_face (if faceArea f < faceArea g then g else f) rest := rfl
      rw [hstep]
      have hbase : faceArea f ≤
          faceArea (if faceArea f < faceArea g then g else f) ∧
          faceArea g ≤ faceArea (if faceArea f < faceArea g then g else f) := by
        by_cases hfg : faceArea f < faceArea g
        · rw [if_pos hfg]; exact ⟨le_of_lt hfg, le_refl _⟩
        · rw [if_neg hfg]; exact ⟨le_refl _, le_of_not_lt hfg⟩
      have hhead := ih (if faceArea f < faceArea g then g else f)
        (if faceArea f < faceArea g then g else f) (by simp)
      rcases List.mem_cons.mp hx with h | h
      · subst h; exact le_trans hbase.1 hhead
      · rcases List.mem_cons.mp h with h2 | h2
        · subst h2; exact le_trans hbase.2 hhead
        · exact ih (if faceArea f < faceArea g then g else f) x
            (List.mem_cons.mpr (Or.inr h2))

/-- C6: for a frame with at least one detected face, the reported
confidence is `min(100, (faceArea / frameArea) * 1000)` for the face
with the largest bounding-box area among all detected faces, and only
that face is used. -/
theorem C6_confidence_of_largest_face (frame_h frame_w : ℕ) (f : Face)
    (fs : List Face) :
    largest_face f fs ∈ f :: fs ∧
    (∀ g ∈ f :: fs, faceArea g ≤ faceArea (largest_face f fs)) ∧
    frame_confidence frame_h frame_w f fs =
      min 100 (((faceArea (largest_face f fs) : ℚ) /
        ((frame_h : ℚ) * (frame_w : ℚ))) * 1000) := by
  refine ⟨largest_face_mem f fs, largest_face_max f fs, ?_⟩
  rw [frame_confidence]
  push_cast
  rfl

/-- C6 witness: two faces in a 480 by 640 frame; the larger one
(40 by 60) yields confidence min(100, (2400/307200)*1000) = 125/16. -/
theorem C6_witness :
    largest_face ⟨0, 0, 30, 30⟩ [⟨10, 10, 40, 60⟩] ∈
      (⟨0, 0, 30, 30⟩ : Face) :: [⟨10, 10, 40, 60⟩] ∧
    (∀ g ∈ (⟨0, 0, 30, 30⟩ : Face) :: [⟨10, 10, 40, 60⟩],
      faceArea g ≤ faceArea (largest_face ⟨0, 0, 30, 30⟩ [⟨10, 10, 40, 60⟩])) ∧
    frame_confidence 480 640 ⟨0, 0, 30, 30⟩ [⟨10, 10, 40, 60⟩] =
      min 100 (((faceArea (largest_face ⟨0, 0, 30, 30⟩ [⟨10, 10, 40, 60⟩]) : ℚ) /
        ((480 : ℚ) * (640 : ℚ))) * 1000) :=
  C6_confidence_of_largest_face 480 640 ⟨0, 0, 30, 30⟩ [⟨10, 10, 40, 60⟩]

/-- C7: a polling cycle whose frame read fails leaves the machine state
exactly as it was, performs no timer call and posts no notification, and
any number of consecutive failed reads keeps the state unchanged. -/
theorem C7_failed_read_is_noop (s : DeepWorkTimer) (n : ℕ) :
    read_frame_step s none = ⟨s, none, none⟩ ∧
    runReadingsState s (List.replicate n none) = s := by
  refine ⟨rfl, ?_⟩
  induction n with
  | zero => rfl
  | succ k ih => rw [List.replicate_succ, runReadingsState]; exact ih

/-- C8 counterexample: starting from the freshly constructed application
state with 25 minutes entered and a camera that fails to open, the error
dialog is shown, but the application state is not as it was before the
attempt: the timer window has been created (and the input window
hidden) before the camera check. -/
theorem C8_counterexample :
    (start_timer app_init (some 25) false).error_message =
      some "Could not access webcam" ∧
    ¬((start_timer app_init (some 25) false).timer_window =
        app_init.timer_window ∧
      (start_timer app_init (some 25) false).root_withdrawn =
        app_init.root_withdrawn) := by
  refine ⟨rfl, ?_⟩
  intro h
  exact absurd h.1 (by decide)

/-- C8 amended: when the camera cannot be opened on a valid start
attempt, the error is surfaced and neither the detection thread nor the
countdown is started, but the input window has already been hidden and
the timer window already created by the time of the check. -/
theorem C8_camera_failure_no_session (s : AppState) (minutes : ℤ)
    (h1 : 0 < minutes) (h2 : minutes ≤ 999) :
    start_timer s (some minutes) false =
      { s with root_withdrawn := true
               timer_window := some (TimerWindow.init (minutes * 60))
               error_message := some "Could not access webcam" } := by
  rw [start_timer]
  rw [if_neg (by push_neg; exact ⟨h1, h2⟩)]
  rfl

/-- C8 witness: a failed start attempt at 25 minutes. -/
theorem C8_witness :
    start_timer app_init (some 25) false =
      { app_init with
          root_withdrawn := true
          timer_window := some (TimerWindow.init 1500)
          error_message := some "Could not access webcam" } :=
  C8_camera_failure_no_session app_init 25 (by decide) (by decide)

/-- C9: starting from a non-negative remaining-seconds value, `tick`,
`pause` and `resume` keep it non-negative; `tick` decrements by exactly
one only when the timer is running and strictly positive and leaves the
value unchanged otherwise; `pause` and `resume` never change it. -/
theorem C9_remaining_seconds_nonneg (w : TimerWindow)
    (h : 0 ≤ w.remaining_seconds) :
    (0 ≤ w.tick.remaining_seconds ∧ 0 ≤ w.pause.remaining_seconds ∧
      0 ≤ w.resume.remaining_seconds) ∧
    (w.is_paused = false → 0 < w.remaining_seconds →
      w.tick.remaining_seconds = w.remaining_seconds - 1) ∧
    (w.is_paused = true ∨ w.remaining_seconds ≤ 0 →
      w.tick.remaining_seconds = w.remaining_seconds) ∧
    w.pause.remaining_seconds = w.remaining_seconds ∧
    w.resume.remaining_seconds = w.remaining_seconds := by
  by_cases hc : w.is_paused = false ∧ 0 < w.remaining_seconds
  · refine ⟨⟨?_, h, h⟩, fun _ _ => ?_, fun hor => ?_, rfl, rfl⟩
    · rw [TimerWindow.tick, if_pos hc]; simp; omega
    · rw [TimerWindow.tick, if_pos hc]
    · rcases hor with hp | hr
      · exact absurd (hc.1.symm.trans hp) (by decide)
      · omega
  · refine ⟨⟨?_, h, h⟩, fun hp hr => ?_, fun _ => ?_, rfl, rfl⟩
    · rw [TimerWindow.tick, if_neg hc]; exact h
    · exact absurd ⟨hp, hr⟩ hc
    · rw [TimerWindow.tick, if_neg hc]

/-- C9 witness: a running timer with 10 seconds left ticks to 9. -/
theorem C9_witness :
    (0 ≤ (⟨600, 10, false⟩ : TimerWindow).tick.remaining_seconds ∧
      0 ≤ (⟨600, 10, false⟩ : TimerWindow).pause.remaining_seconds ∧
      0 ≤ (⟨600, 10, false⟩ : TimerWindow).resume.remaining_seconds) ∧
    ((⟨600, 10, false⟩ : TimerWindow).is_paused = false →
      0 < (⟨600, 10, false⟩ : TimerWindow).remaining_seconds →
      (⟨600, 10, false⟩ : TimerWindow).tick.remaining_seconds = 10 - 1) ∧
    ((⟨600, 10, false⟩ : TimerWindow).is_paused = true ∨
      (⟨600, 10, false⟩ : TimerWindow).remaining_seconds ≤ 0 →
      (⟨600, 10, false⟩ : TimerWindow).tick.remaining_seconds = 10) ∧
    (⟨600, 10, false⟩ : TimerWindow).pause.remaining_seconds = 10 ∧
    (⟨600, 10, false⟩ : TimerWindow).resume.remaining_seconds = 10 :=
  C9_remaining_seconds_nonneg ⟨600, 10, false⟩ (by decide)

/-- Auxiliary for C10: one observation preserves the agreement between
`last_state` and the paused flag. -/
theorem observe_preserves_notify_consistent (s : DeepWorkTimer)
    (p : PresenceSample) (h : notify_consistent s) :
    notify_consistent (observe s p).state := by
  cases hc : face_present p.confidence with
  | false =>
      cases hnf : s.no_face_start_time with
      | none => simpa [observe, hc, hnf, notify_consistent] using h
      | some t0 =>
          by_cases hge : graceDuration ≤ p.timestamp - t0
          · by_cases hp : s.timer.is_paused = false
            · by_cases hls : s.last_state = "paused"
              · simp [observe, hc, hnf, hge, hp, hls, notify_consistent,
                  TimerWindow.pause]
              · simp [observe, hc, hnf, hge, hp, hls, notify_consistent,
                  TimerWindow.pause]
            · simpa [observe, hc, hnf, hge, hp, notify_consistent] using h
          · simpa [observe, hc, hnf, hge, notify_consistent] using h
  | true =>
      by_cases hp : s.timer.is_paused = true
      · by_cases hls : s.last_state = "running"
        · simp [observe, hc, hp, hls, notify_consistent, TimerWindow.resume]
        · simp [observe, hc, hp, hls, notify_consistent, TimerWindow.resume]
      · simp only [Bool.not_eq_true] at hp
        rw [observe_present_running s p hc hp]
        simpa [notify_consistent] using h

/-- Auxiliary for C10: the agreement holds after any run of samples
from a state where it holds. -/
theorem runState_preserves_notify_consistent (s : DeepWorkTimer)
    (l : List PresenceSample) (h : notify_consistent s) :
    notify_consistent (runState s l) := by
  induction l generalizing s with
  | nil => exact h
  | cons p rest ih =>
      rw [runState]
      exact ih _ (observe_preserves_notify_consistent s p h)

/-- C10: the notification bookkeeping agrees with the timer state —
`last_state = "paused"` exactly when the timer's paused flag is set —
after construction, after any single observation from an agreeing state,
and after any run of observations from the freshly built machine. -/
theorem C10_last_state_matches_paused_flag (T : ℤ) (s : DeepWorkTimer)
    (p : PresenceSample) (l : List PresenceSample)
    (h : notify_consistent s) :
    notify_consistent (DeepWorkTimer.init T) ∧
    notify_consistent (observe s p).state ∧
    notify_consistent (runState (DeepWorkTimer.init T) l) := by
  have hinit : notify_consistent (DeepWorkTimer.init T) := by
    simp [notify_consistent, DeepWorkTimer.init, TimerWindow.init]
  exact ⟨hinit, observe_preserves_notify_consistent s p h,
    runState_preserves_notify_consistent _ l hinit⟩

/-- C10 witness: agreement holds at the fresh machine, after observing
a present sample there, and after a short run. -/
theorem C10_witness :
    notify_consistent (DeepWorkTimer.init 600) ∧
    notify_consistent (observe (DeepWorkTimer.init 600) ⟨60, 0⟩).state ∧
    notify_consistent (runState (DeepWorkTimer.init 600) [⟨60, 0⟩, ⟨5, 1⟩]) :=
  C10_last_state_matches_paused_flag 600 (DeepWorkTimer.init 600) ⟨60, 0⟩
    [⟨60, 0⟩, ⟨5, 1⟩]
    (by simp [notify_consistent, DeepWorkTimer.init, TimerWindow.init])

end FocusGuard
